import Mathlib

/-
Shallow embedding of src/timezones/fields.py (django-timezones).

Datetimes are modelled as a wall-clock reading (in minutes, as an Int)
together with an optional timezone; a timezone is a named fixed offset
(minutes east of UTC).  The pytz database is an explicit list of timezones.
All the actual timezone math (localize, astimezone) is external to the
repository; it is embedded here by its documented behaviour: localize
attaches a zone to a naive datetime, astimezone re-expresses an aware
datetime in another zone while denoting the same instant.

Delegation to the ORM base classes (super().get_db_prep_save and friends)
is embedded as returning the value that the module passes to the base
class, since the claims are about the value at that boundary.
-/

/-- A pytz timezone: a canonical name and a fixed UTC offset in minutes. -/
structure Tzinfo where
  name : String
  offset : Int
deriving DecidableEq

/-- A datetime: wall-clock minutes plus an optional timezone (None = naive). -/
structure Datetime where
  wall : Int
  tzinfo : Option Tzinfo
deriving DecidableEq

/-- pytz localize: attach a zone to a (naive) datetime, keeping the wall clock. -/
def Tzinfo.localize (tz : Tzinfo) (d : Datetime) : Datetime :=
  { wall := d.wall, tzinfo := some tz }

/-- datetime.astimezone: re-express an aware datetime in another zone, keeping
the denoted instant.  The module only ever calls it on aware values (Python
would raise on a naive one in this code base); the naive case is inert here. -/
def Datetime.astimezone (d : Datetime) (tz : Tzinfo) : Datetime :=
  match d.tzinfo with
  | some old => { wall := d.wall - old.offset + tz.offset, tzinfo := some tz }
  | Option.none => d

/-- datetime.replace(tzinfo=None): drop the timezone, keep the wall clock. -/
def Datetime.replace_tzinfo_none (d : Datetime) : Datetime :=
  { wall := d.wall, tzinfo := Option.none }

/-- The instant an aware datetime denotes (UTC minutes); None for naive. -/
def Datetime.instant (d : Datetime) : Option Int :=
  d.tzinfo.map (fun tz => d.wall - tz.offset)

/-- A value being normalized into a timezone: a string, a tzinfo object, or
anything else (None, a datetime, ...). -/
inductive Timezoneish where
  | str (s : String)
  | tz (t : Tzinfo)
  | other
deriving Inhabited

/-- Module-level configuration read from settings at import time:
default_tz = pytz.timezone(settings.TIME_ZONE) and
INTERNAL_TZ = get_timezone(settings.TIMEZONES_INTERNAL_TZ). -/
structure Config where
  internalTz : Tzinfo
  defaultTz : Tzinfo

/-- Modelled from the spec: get_timezone from timezones/utils.py is not part of
the provided source.  Per the spec it normalizes a heterogeneous timezone
representation (a string or a tzinfo object) into a canonical timezone,
falling back to the given default timezone for anything it cannot normalize. -/
def get_timezone (db : List Tzinfo) (z : Timezoneish) (fallback : Tzinfo) : Tzinfo :=
  match z with
  | .str s => (db.find? (fun t => t.name == s)).getD fallback
  | .tz t => t
  | .other => fallback

/-- Modelled from the spec: coerce_timezone_value from timezones/utils.py is
not part of the provided source.  Per the spec it normalizes a timezone name
string into the canonical timezone object, raising a validation error on an
unknown name. -/
def coerce_timezone_value (db : List Tzinfo) (value : String) : Except String Tzinfo :=
  match db.find? (fun t => t.name == value) with
  | some t => Except.ok t
  | Option.none => Except.error "ValidationError: invalid timezone"

/-- A value held by a TimeZoneField attribute: a timezone object or a string. -/
inductive TZValue where
  | tz (t : Tzinfo)
  | str (s : String)
deriving DecidableEq

/-- django.utils.encoding.smart_unicode on a TimeZoneField value: the str()
of a pytz timezone object is its canonical name. -/
def smart_unicode : TZValue → String
  | .tz t => t.name
  | .str s => s

namespace TimeZoneField

/-- TimeZoneField.to_python: super().to_python (CharField) is the identity on
strings and on None; None is passed through (null=True), any other value is
coerced through coerce_timezone_value. -/
def to_python (db : List Tzinfo) (value : Option String) : Except String (Option Tzinfo) :=
  match value with
  | Option.none => Except.ok Option.none
  | some s => (coerce_timezone_value db s).map some

/-- TimeZoneField.get_prep_value: None passes through, anything else goes
through smart_unicode. -/
def get_prep_value (value : Option TZValue) : Option String :=
  match value with
  | Option.none => Option.none
  | some v => some (smart_unicode v)

end TimeZoneField

/-- A value stored in an instance attribute: a string, a tzinfo object, a
no-argument callable (an object method), or a datetime slot as stored by the
localizing property (None or a datetime). -/
inductive AttrVal where
  | str (s : String)
  | tz (t : Tzinfo)
  | fn0 (g : Unit → Timezoneish)
  | dtv (d : Option Datetime)

/-- A model instance: its attribute dictionary. -/
structure Instance where
  attrs : List (String × AttrVal)

/-- getattr(instance, n): the most recently set binding of n, if any. -/
def Instance.getattr (i : Instance) (n : String) : Option AttrVal :=
  (i.attrs.find? (fun p => p.1 == n)).map (fun p => p.2)

/-- setattr(instance, n, v). -/
def Instance.setattr (i : Instance) (n : String) (v : AttrVal) : Instance :=
  { attrs := (n, v) :: i.attrs }

/-- The timezone argument of LocalizedDateTimeField.__init__ and the value of
field.timezone: None, a timezone string, a pytz timezone object, or a callable
taking the instance. -/
inductive TzConfig where
  | none
  | str (s : String)
  | tz (t : Tzinfo)
  | fn (g : Instance → Timezoneish)

/-- The `field.timezone is None` test of prep_localized_datetime. -/
def TzConfig.isNone : TzConfig → Bool
  | .none => true
  | _ => false

/-- The state of a LocalizedDateTimeField after __init__. -/
structure LocalizedDateTimeField where
  attname : String
  timezone : TzConfig
  save_timezone : Bool

namespace LocalizedDateTimeField

/-- LocalizedDateTimeField.__init__: a timezone string naming a member of
pytz.all_timezones_set is replaced by the pytz timezone object; every other
value (None, an unknown string, a tzinfo object, a callable) is kept as is. -/
def init (db : List Tzinfo) (attname : String) (timezone : TzConfig)
    (save_tz : Bool) : LocalizedDateTimeField :=
  match timezone with
  | .str s =>
    match db.find? (fun t => t.name == s) with
    | some t => { attname := attname, timezone := .tz t, save_timezone := save_tz }
    | Option.none => { attname := attname, timezone := .str s, save_timezone := save_tz }
  | tzc => { attname := attname, timezone := tzc, save_timezone := save_tz }

end LocalizedDateTimeField

/-- Step 2 of get_timezone_for_instance: a string naming an attribute of the
instance is replaced by that attribute, and an attribute that is itself
callable (an object method) is called with no arguments. -/
def resolve_attr (inst : Instance) (z : Timezoneish) : Timezoneish :=
  match z with
  | .str s =>
    match inst.getattr s with
    | some (.fn0 g) => g ()
    | some (.str s2) => .str s2
    | some (.tz t) => .tz t
    | some (.dtv _) => .other
    | Option.none => .str s
  | z => z

/-- LocalizedDateTimeField.get_timezone_for_instance: step 1 calls a callable
configuration with the instance, step 2 resolves a string through the instance
attributes, step 3 canonicalizes through get_timezone with default_tz as the
fallback. -/
def get_timezone_for_instance (cfg : Config) (db : List Tzinfo)
    (f : LocalizedDateTimeField) (inst : Instance) : Tzinfo :=
  let t1 : Timezoneish :=
    match f.timezone with
    | .fn g => g inst
    | .str s => .str s
    | .tz t => .tz t
    | .none => .other
  get_timezone db (resolve_attr inst t1) cfg.defaultTz

/-- LocalizedDateTimeField.get_db_prep_save: a non-None value is localized to
INTERNAL_TZ if naive, converted to INTERNAL_TZ with astimezone if aware; if
save_timezone is off, the tzinfo is then stripped.  The result is the value
handed to the base field. -/
def get_db_prep_save (cfg : Config) (f : LocalizedDateTimeField)
    (value : Option Datetime) : Option Datetime :=
  match value with
  | Option.none => Option.none
  | some v =>
    let v1 := if v.tzinfo = Option.none then cfg.internalTz.localize v
              else v.astimezone cfg.internalTz
    let v2 := if !f.save_timezone then v1.replace_tzinfo_none else v1
    some v2

/-- A value handed to get_db_prep_lookup: a datetime (has a tzinfo attribute)
or a boolean as produced by an isnull lookup (has none). -/
inductive LookupValue where
  | dt (d : Datetime)
  | boolv (b : Bool)
deriving DecidableEq

/-- LocalizedDateTimeField.get_db_prep_lookup: a value with a tzinfo attribute
is converted to default_tz (localized if naive, astimezone if aware); then,
regardless of that guard, if save_timezone is off the code calls
value.replace(tzinfo=None), which raises AttributeError on a non-datetime
value.  The ok result is the value handed to the base field. -/
def get_db_prep_lookup (cfg : Config) (f : LocalizedDateTimeField)
    (lookup_type : String) (value : LookupValue) : Except String LookupValue :=
  let value := match value with
    | .dt d =>
      LookupValue.dt (if d.tzinfo = Option.none then cfg.defaultTz.localize d
                      else d.astimezone cfg.defaultTz)
    | v => v
  if !f.save_timezone then
    match value with
    | .dt d => Except.ok (.dt d.replace_tzinfo_none)
    | .boolv _ => Except.error "AttributeError: bool object has no attribute replace"
  else
    Except.ok value

/-- The name of the backing attribute used by create_property. -/
def dt_field_name (f : LocalizedDateTimeField) : String :=
  "_dtz_" ++ f.attname

/-- The getter built by create_property. -/
def get_dtz_field (f : LocalizedDateTimeField) (inst : Instance) : Option AttrVal :=
  inst.getattr (dt_field_name f)

/-- The setter built by create_property: None is stored as is; a naive value
is localized to INTERNAL_TZ; the (now aware) value is stored converted to the
per-instance timezone with astimezone. -/
def set_dtz_field (cfg : Config) (db : List Tzinfo) (f : LocalizedDateTimeField)
    (inst : Instance) (dt : Option Datetime) : Instance :=
  match dt with
  | Option.none => inst.setattr (dt_field_name f) (AttrVal.dtv Option.none)
  | some d =>
    let d := if d.tzinfo = Option.none then cfg.internalTz.localize d else d
    let tz := get_timezone_for_instance cfg db f inst
    inst.setattr (dt_field_name f) (AttrVal.dtv (some (d.astimezone tz)))

/-- A field of a model class: a LocalizedDateTimeField or any other field,
identified by its attribute name. -/
inductive ModelField where
  | ldt (f : LocalizedDateTimeField)
  | plain (attname : String)

/-- A class attribute: the localizing property installed for a field (the
closures built by create_property are determined by the field), or any
pre-existing attribute, abstracted as a tag. -/
inductive ClassAttr where
  | localized_property (f : LocalizedDateTimeField)
  | plain_attr (tag : String)

/-- A model class as seen by the class_prepared hook: its _meta.fields and its
class attribute dictionary. -/
structure ModelClass where
  fields : List ModelField
  class_attrs : List (String × ClassAttr)

/-- Class attribute lookup: the most recently set binding. -/
def ModelClass.getClassAttr (m : ModelClass) (n : String) : Option ClassAttr :=
  (m.class_attrs.find? (fun p => p.1 == n)).map (fun p => p.2)

/-- One iteration of the prep_localized_datetime loop: a LocalizedDateTimeField
whose timezone is not None has the localizing property set under its attname;
every other field is skipped (continue). -/
def prep_step (attrs : List (String × ClassAttr)) (mf : ModelField) :
    List (String × ClassAttr) :=
  match mf with
  | ModelField.ldt f =>
    if f.timezone.isNone then attrs
    else (f.attname, ClassAttr.localized_property f) :: attrs
  | ModelField.plain _ => attrs

/-- prep_localized_datetime: for each field of the sender that is a
LocalizedDateTimeField whose timezone is not None, setattr the localizing
property under the field attname; every other field is skipped. -/
def prep_localized_datetime (sender : ModelClass) : ModelClass :=
  { sender with
    class_attrs := sender.fields.foldl prep_step sender.class_attrs }

/-- The fields of a list that prep_localized_datetime acts on: the
LocalizedDateTimeField entries whose timezone is not None. -/
def qualifying (fs : List ModelField) : List LocalizedDateTimeField :=
  fs.filterMap (fun mf =>
    match mf with
    | ModelField.ldt f => if f.timezone.isNone then Option.none else some f
    | ModelField.plain _ => Option.none)

/-
Concrete objects used by witnesses and counterexamples.
-/

/-- Coordinated Universal Time. -/
def utc : Tzinfo := { name := "UTC", offset := 0 }

/-- A zone one hour east of UTC. -/
def stockholm : Tzinfo := { name := "Europe/Stockholm", offset := 60 }

/-- A two-zone timezone database. -/
def db0 : List Tzinfo := [utc, stockholm]

/-- A settings configuration where the internal storage timezone and the
default timezone differ. -/
def cfg0 : Config := { internalTz := utc, defaultTz := stockholm }

/-- A field with save_timezone on. -/
def f_save : LocalizedDateTimeField :=
  { attname := "created", timezone := TzConfig.none, save_timezone := true }

/-- A field with save_timezone off. -/
def f_nosave : LocalizedDateTimeField :=
  { attname := "created", timezone := TzConfig.none, save_timezone := false }

/-- An aware datetime at UTC minute 0. -/
def v0 : Datetime := { wall := 0, tzinfo := some utc }

/-- A naive datetime. -/
def naive1 : Datetime := { wall := 30, tzinfo := Option.none }

/-- An instance carrying a timezone-returning method and a timezone name. -/
def inst0 : Instance :=
  { attrs := [("tzmethod", AttrVal.fn0 (fun _ => Timezoneish.tz stockholm)),
              ("tzname", AttrVal.str "UTC")] }

/-
Helper lemmas shared between the claims.
-/

/-- astimezone preserves the denoted instant of an aware datetime. -/
theorem instant_astimezone (v : Datetime) (t0 t1 : Tzinfo) (h : v.tzinfo = some t0) :
    (v.astimezone t1).instant = v.instant := by
  simp [Datetime.astimezone, Datetime.instant, h]

/-- The conversion to the internal storage timezone performed at the save
boundary: localize a naive value, astimezone an aware one. -/
def to_internal (cfg : Config) (v : Datetime) : Datetime :=
  if v.tzinfo = Option.none then cfg.internalTz.localize v
  else v.astimezone cfg.internalTz

/-
The claims.
-/

/-- Claim C9: every public conversion entry point maps None to None:
TimeZoneField.to_python returns None for None, TimeZoneField.get_prep_value
returns None for None, LocalizedDateTimeField.get_db_prep_save passes None
through without any timezone conversion, and the property setter stores None
when assigned None, for every field configuration and instance. -/
theorem c9_none_maps_to_none (db : List Tzinfo) (cfg : Config)
    (f : LocalizedDateTimeField) (i : Instance) :
    TimeZoneField.to_python db Option.none = Except.ok Option.none ∧
    TimeZoneField.get_prep_value Option.none = Option.none ∧
    get_db_prep_save cfg f Option.none = Option.none ∧
    set_dtz_field cfg db f i Option.none =
      i.setattr (dt_field_name f) (AttrVal.dtv Option.none) :=
  ⟨rfl, rfl, rfl, rfl⟩

/-- Claim C6: for a string naming a valid canonical timezone,
TimeZoneField.to_python normalizes it to the canonical timezone object and
TimeZoneField.get_prep_value maps that object back to the original name. -/
theorem c6_to_python_prep_value_roundtrip (db : List Tzinfo) (s : String)
    (t : Tzinfo) (h : db.find? (fun z => z.name == s) = some t) :
    TimeZoneField.to_python db (some s) = Except.ok (some t) ∧
    TimeZoneField.get_prep_value (some (TZValue.tz t)) = some s := by
  have hname : t.name = s := by
    have hb := List.find?_some h
    simpa using hb
  constructor
  · simp [TimeZoneField.to_python, coerce_timezone_value, h, Except.map]
  · simp [TimeZoneField.get_prep_value, smart_unicode, hname]

/-- Witness for C6 at the name UTC in the two-zone database. -/
theorem c6_witness :
    TimeZoneField.to_python db0 (some "UTC") = Except.ok (some utc) ∧
    TimeZoneField.get_prep_value (some (TZValue.tz utc)) = some "UTC" :=
  c6_to_python_prep_value_roundtrip db0 "UTC" utc (by rfl)

/-- Claim C1: for every non-None value, get_db_prep_save converts the value to
the internal storage timezone before delegating: a naive value is localized to
INTERNAL_TZ, an aware value is converted to INTERNAL_TZ with astimezone (the
tzinfo being stripped afterwards only when save_timezone is off). -/
theorem c1_save_converts_to_internal (cfg : Config) (f : LocalizedDateTimeField)
    (v : Datetime) :
    (v.tzinfo = Option.none →
      get_db_prep_save cfg f (some v) =
        some (if f.save_timezone then cfg.internalTz.localize v
              else (cfg.internalTz.localize v).replace_tzinfo_none)) ∧
    (∀ t0, v.tzinfo = some t0 →
      get_db_prep_save cfg f (some v) =
        some (if f.save_timezone then v.astimezone cfg.internalTz
              else (v.astimezone cfg.internalTz).replace_tzinfo_none)) := by
  constructor
  · intro h
    simp [get_db_prep_save, h]
    cases f.save_timezone <;> simp
  · intro t0 h
    simp [get_db_prep_save, h]
    cases f.save_timezone <;> simp

/-- Witness for C1: a naive and an aware value through a save_timezone field. -/
theorem c1_witness :
    get_db_prep_save cfg0 f_save (some naive1) = some (cfg0.internalTz.localize naive1) ∧
    get_db_prep_save cfg0 f_save (some v0) = some (v0.astimezone cfg0.internalTz) := by
  constructor
  · have h := (c1_save_converts_to_internal cfg0 f_save naive1).1 rfl
    simpa [f_save] using h
  · have h := (c1_save_converts_to_internal cfg0 f_save v0).2 utc rfl
    simpa [f_save] using h

/-- Claim C10: with save_timezone off, get_db_prep_save yields a naive value
whose clock fields are those of the value converted to the internal storage
timezone; with save_timezone on, the value keeps the internal tzinfo. -/
theorem c10_save_timezone_strip (cfg : Config) (f : LocalizedDateTimeField)
    (v : Datetime) :
    (f.save_timezone = false →
      get_db_prep_save cfg f (some v) =
        some { wall := (to_internal cfg v).wall, tzinfo := Option.none }) ∧
    (f.save_timezone = true →
      get_db_prep_save cfg f (some v) = some (to_internal cfg v) ∧
      (to_internal cfg v).tzinfo = some cfg.internalTz) := by
  constructor
  · intro h
    simp [get_db_prep_save, to_internal, h, Datetime.replace_tzinfo_none]
  · intro h
    refine ⟨by simp [get_db_prep_save, to_internal, h], ?_⟩
    by_cases hv : v.tzinfo = Option.none
    · simp [to_internal, hv, Tzinfo.localize]
    · cases hvt : v.tzinfo with
      | none => exact absurd hvt hv
      | some t0 => simp [to_internal, hvt, Datetime.astimezone]

/-- Witness for C10: both save_timezone settings at an aware value. -/
theorem c10_witness :
    get_db_prep_save cfg0 f_nosave (some v0) =
      some { wall := (to_internal cfg0 v0).wall, tzinfo := Option.none } ∧
    get_db_prep_save cfg0 f_save (some v0) = some (to_internal cfg0 v0) := by
  constructor
  · exact (c10_save_timezone_strip cfg0 f_nosave v0).1 rfl
  · exact ((c10_save_timezone_strip cfg0 f_save v0).2 rfl).1

/-- Claim C2: the property setter stores a non-None dt converted to the
per-instance display timezone (a naive dt being first localized to
INTERNAL_TZ, then astimezone to the timezone from get_timezone_for_instance),
and the getter reads back exactly the stored value. -/
theorem c2_property_setter_getter (cfg : Config) (db : List Tzinfo)
    (f : LocalizedDateTimeField) (i : Instance) (d : Datetime) :
    set_dtz_field cfg db f i (some d) =
      i.setattr (dt_field_name f)
        (AttrVal.dtv (some ((if d.tzinfo = Option.none then cfg.internalTz.localize d else d).astimezone
          (get_timezone_for_instance cfg db f i)))) ∧
    get_dtz_field f (set_dtz_field cfg db f i (some d)) =
      some (AttrVal.dtv (some ((if d.tzinfo = Option.none then cfg.internalTz.localize d else d).astimezone
        (get_timezone_for_instance cfg db f i)))) := by
  constructor
  · rfl
  · simp [get_dtz_field, set_dtz_field, Instance.getattr, Instance.setattr, List.find?]

/-- Claim C3: get_timezone_for_instance normalizes the configured timezone in
order: a callable configuration is called with the instance; a string naming
an instance attribute is replaced by that attribute, itself called with no
arguments when callable; the final string or tzinfo value is canonicalized
through get_timezone, falling back to the default timezone from
settings.TIME_ZONE. -/
theorem c3_timezone_normalization_cascade (cfg : Config) (db : List Tzinfo)
    (i : Instance) (a : String) (sv : Bool) :
    (∀ g, get_timezone_for_instance cfg db ⟨a, TzConfig.fn g, sv⟩ i =
        get_timezone db (resolve_attr i (g i)) cfg.defaultTz) ∧
    (∀ s g, i.getattr s = some (AttrVal.fn0 g) →
      get_timezone_for_instance cfg db ⟨a, TzConfig.str s, sv⟩ i =
        get_timezone db (g ()) cfg.defaultTz) ∧
    (∀ s s2, i.getattr s = some (AttrVal.str s2) →
      get_timezone_for_instance cfg db ⟨a, TzConfig.str s, sv⟩ i =
        get_timezone db (Timezoneish.str s2) cfg.defaultTz) ∧
    (∀ s t, i.getattr s = some (AttrVal.tz t) →
      get_timezone_for_instance cfg db ⟨a, TzConfig.str s, sv⟩ i = t) ∧
    (∀ s, i.getattr s = Option.none →
      get_timezone_for_instance cfg db ⟨a, TzConfig.str s, sv⟩ i =
        get_timezone db (Timezoneish.str s) cfg.defaultTz) ∧
    (∀ t, get_timezone_for_instance cfg db ⟨a, TzConfig.tz t, sv⟩ i = t) ∧
    (get_timezone_for_instance cfg db ⟨a, TzConfig.none, sv⟩ i = cfg.defaultTz) ∧
    (∀ s, i.getattr s = Option.none → db.find? (fun t => t.name == s) = Option.none →
      get_timezone_for_instance cfg db ⟨a, TzConfig.str s, sv⟩ i = cfg.defaultTz) := by
  refine ⟨?_, ?_, ?_, ?_, ?_, ?_, ?_, ?_⟩
  · intro g
    simp [get_timezone_for_instance]
  · intro s g h
    simp [get_timezone_for_instance, resolve_attr, h]
  · intro s s2 h
    simp [get_timezone_for_instance, resolve_attr, h]
  · intro s t h
    simp [get_timezone_for_instance, resolve_attr, h, get_timezone]
  · intro s h
    simp [get_timezone_for_instance, resolve_attr, h]
  · intro t
    simp [get_timezone_for_instance, resolve_attr, get_timezone]
  · simp [get_timezone_for_instance, resolve_attr, get_timezone]
  · intro s h hdb
    simp [get_timezone_for_instance, resolve_attr, h, get_timezone, hdb]

/-- Witness for C3: a string configuration naming an instance method that
returns a timezone object resolves to that timezone. -/
theorem c3_witness :
    get_timezone_for_instance cfg0 db0
      { attname := "created", timezone := TzConfig.str "tzmethod", save_timezone := true }
      inst0 = stockholm := by
  have h := (c3_timezone_normalization_cascade cfg0 db0 inst0 "created" true).2.1
    "tzmethod" (fun _ => Timezoneish.tz stockholm) (by rfl)
  simpa [get_timezone] using h

/-- Claim C4 as amended: get_db_prep_lookup converts a datetime-like value to
the default timezone from settings.TIME_ZONE (not the internal storage
timezone) before delegating: naive values are localized to default_tz, aware
values are converted to default_tz with astimezone; when save_timezone is off
the tzinfo is then stripped. -/
theorem c4_lookup_converts_to_default (cfg : Config) (f : LocalizedDateTimeField)
    (lt : String) (v : Datetime) :
    get_db_prep_lookup cfg f lt (LookupValue.dt v) =
      Except.ok (LookupValue.dt
        (if f.save_timezone then
           (if v.tzinfo = Option.none then cfg.defaultTz.localize v
            else v.astimezone cfg.defaultTz)
         else
           (if v.tzinfo = Option.none then cfg.defaultTz.localize v
            else v.astimezone cfg.defaultTz).replace_tzinfo_none)) := by
  simp only [get_db_prep_lookup]
  cases f.save_timezone <;> simp

/-- Counterexample for C4 as stated: with the internal storage timezone UTC
and the default timezone one hour east, an aware lookup value is not converted
to the internal storage timezone. -/
theorem c4_counterexample :
    get_db_prep_lookup cfg0 f_save "exact" (LookupValue.dt v0) ≠
      Except.ok (LookupValue.dt (v0.astimezone cfg0.internalTz)) := by
  intro h
  simp [get_db_prep_lookup, cfg0, f_save, v0, utc, stockholm,
    Datetime.astimezone] at h

/-- Claim C8 (code bug): get_db_prep_lookup on a value without a tzinfo
attribute (the boolean of an isnull lookup) succeeds untouched when
save_timezone is on, but raises AttributeError when save_timezone is off,
because value.replace(tzinfo=None) is applied outside the hasattr guard. -/
theorem c8_isnull_lookup_behaviour :
    get_db_prep_lookup cfg0 f_save "isnull" (LookupValue.boolv true) =
      Except.ok (LookupValue.boolv true) ∧
    get_db_prep_lookup cfg0 f_nosave "isnull" (LookupValue.boolv true) =
      Except.error "AttributeError: bool object has no attribute replace" :=
  ⟨rfl, rfl⟩

/-- Claim C7: every boundary transformation preserves the instant of an aware
input: get_db_prep_save and get_db_prep_lookup (keeping the instant outright
with save_timezone on, and keeping it as the clock reading of the target
timezone with it off), and the display-side property setter. -/
theorem c7_instant_preservation (cfg : Config) (db : List Tzinfo)
    (f : LocalizedDateTimeField) (i : Instance) (lt : String)
    (v : Datetime) (t0 : Tzinfo) (h : v.tzinfo = some t0) :
    (f.save_timezone = true →
      get_db_prep_save cfg f (some v) = some (v.astimezone cfg.internalTz) ∧
      (v.astimezone cfg.internalTz).instant = v.instant) ∧
    (f.save_timezone = false →
      get_db_prep_save cfg f (some v) =
        some { wall := (v.astimezone cfg.internalTz).wall, tzinfo := Option.none } ∧
      (v.astimezone cfg.internalTz).wall - cfg.internalTz.offset = v.wall - t0.offset) ∧
    (f.save_timezone = true →
      get_db_prep_lookup cfg f lt (LookupValue.dt v) =
        Except.ok (LookupValue.dt (v.astimezone cfg.defaultTz)) ∧
      (v.astimezone cfg.defaultTz).instant = v.instant) ∧
    (f.save_timezone = false →
      get_db_prep_lookup cfg f lt (LookupValue.dt v) =
        Except.ok (LookupValue.dt
          { wall := (v.astimezone cfg.defaultTz).wall, tzinfo := Option.none }) ∧
      (v.astimezone cfg.defaultTz).wall - cfg.defaultTz.offset = v.wall - t0.offset) ∧
    (get_dtz_field f (set_dtz_field cfg db f i (some v)) =
        some (AttrVal.dtv (some (v.astimezone (get_timezone_for_instance cfg db f i)))) ∧
      (v.astimezone (get_timezone_for_instance cfg db f i)).instant = v.instant) := by
  refine ⟨?_, ?_, ?_, ?_, ?_⟩
  · intro hs
    exact ⟨by simp [get_db_prep_save, h, hs], instant_astimezone v t0 _ h⟩
  · intro hs
    refine ⟨by simp [get_db_prep_save, h, hs, Datetime.replace_tzinfo_none], ?_⟩
    simp [Datetime.astimezone, h]
  · intro hs
    exact ⟨by simp [get_db_prep_lookup, h, hs], instant_astimezone v t0 _ h⟩
  · intro hs
    refine ⟨by simp [get_db_prep_lookup, h, hs, Datetime.replace_tzinfo_none], ?_⟩
    simp [Datetime.astimezone, h]
  · refine ⟨?_, instant_astimezone v t0 _ h⟩
    simp [get_dtz_field, set_dtz_field, Instance.getattr, Instance.setattr,
      List.find?, h]

/-- Witness for C7: an aware value through save, lookup under both
save_timezone settings, and the setter. -/
theorem c7_witness :
    (get_db_prep_save cfg0 f_save (some v0) = some (v0.astimezone cfg0.internalTz) ∧
      (v0.astimezone cfg0.internalTz).instant = v0.instant) ∧
    (get_db_prep_lookup cfg0 f_save "exact" (LookupValue.dt v0) =
        Except.ok (LookupValue.dt (v0.astimezone cfg0.defaultTz)) ∧
      (v0.astimezone cfg0.defaultTz).instant = v0.instant) ∧
    (get_db_prep_lookup cfg0 f_nosave "exact" (LookupValue.dt v0) =
        Except.ok (LookupValue.dt
          { wall := (v0.astimezone cfg0.defaultTz).wall, tzinfo := Option.none }) ∧
      (v0.astimezone cfg0.defaultTz).wall - cfg0.defaultTz.offset = v0.wall - utc.offset) := by
  have h := c7_instant_preservation cfg0 db0 f_save inst0 "exact" v0 utc rfl
  have h2 := c7_instant_preservation cfg0 db0 f_nosave inst0 "exact" v0 utc rfl
  exact ⟨h.1 rfl, h.2.2.1 rfl, h2.2.2.2.1 rfl⟩

/-- Folding the prep_localized_datetime loop over a field list: a name lookup
afterwards finds the property of the last qualifying field with that attname,
and falls back to the initial attributes otherwise. -/
theorem prep_foldl_find (fs : List ModelField) (attrs : List (String × ClassAttr))
    (n : String) :
    (fs.foldl prep_step attrs).find? (fun p => p.1 == n) =
      match (qualifying fs).reverse.find? (fun f => f.attname == n) with
      | some f => some (f.attname, ClassAttr.localized_property f)
      | Option.none => attrs.find? (fun p => p.1 == n) := by
  induction fs generalizing attrs with
  | nil => simp [qualifying]
  | cons mf fs ih =>
    cases mf with
    | plain a =>
      simp only [List.foldl_cons, prep_step, qualifying, List.filterMap_cons]
      exact ih attrs
    | ldt f =>
      cases hq : f.timezone.isNone with
      | true =>
        simp only [List.foldl_cons, prep_step, hq, if_pos rfl, qualifying,
          List.filterMap_cons]
        exact ih attrs
      | false =>
        have hqual : qualifying (ModelField.ldt f :: fs) = f :: qualifying fs := by
          simp [qualifying, List.filterMap_cons, hq]
        have hstep : prep_step attrs (ModelField.ldt f) =
            (f.attname, ClassAttr.localized_property f) :: attrs := by
          simp [prep_step, hq]
        rw [hqual, List.reverse_cons, List.find?_append, List.foldl_cons, hstep,
          ih ((f.attname, ClassAttr.localized_property f) :: attrs)]
        cases hQ : (qualifying fs).reverse.find? (fun g => g.attname == n) with
        | some g => simp
        | none =>
          simp only [Option.none_orElse]
          cases ha : (f.attname == n) <;> simp [List.find?, ha]

/-- Claim C5: after prep_localized_datetime, exactly the LocalizedDateTimeField
fields with a non-None timezone configuration have their attribute bound to
the localizing property (the last such field winning for a shared attname);
every other class attribute is unchanged. -/
theorem c5_prep_localized_datetime_attrs (s : ModelClass) (n : String) :
    (prep_localized_datetime s).getClassAttr n =
      match (qualifying s.fields).reverse.find? (fun f => f.attname == n) with
      | some f => some (ClassAttr.localized_property f)
      | Option.none => s.getClassAttr n := by
  simp only [prep_localized_datetime, ModelClass.getClassAttr]
  rw [prep_foldl_find]
  cases (qualifying s.fields).reverse.find? (fun f => f.attname == n) <;> rfl
